import Mathlib

/-!
Shallow embedding of the PocketPilot publishing-support scripts:
`verify_publishing_files.py` (the publishing-file verifier) and
`generate_feature_graphic.py` (the promotional graphic generator).

The verifier is modelled over an existence oracle `FS : String → Bool`
standing for `os.path.exists` (true for a file or a directory at the path).
Console output is modelled as the list of printed lines, one element per
`print` call. The graphic generator is modelled by recording the chosen
fonts, the sequence of drawing operations, the printed lines, and the
filesystem effects (directory creation and the saved image).
-/

namespace Verify

/-- Existence oracle for the local filesystem: `fs p = true` iff a file or a
directory exists at path `p` (the model of Python `os.path.exists`). -/
abbrev FS := String → Bool

/-- Python `"c" * n`: a string of `n` copies of character `c`. -/
def repeatChar (n : Nat) (c : Char) : String :=
  String.mk (List.replicate n c)

/-- `check_file_exists` from `verify_publishing_files.py`: returns the status
emoji, "✅" when the path exists and "❌" otherwise. -/
def check_file_exists (fs : FS) (filepath : String) : String :=
  if fs filepath then "✅" else "❌"

/-- The hardcoded `required_files` list from `main`, in source order. -/
def required_files : List (String × String) :=
  [("Privacy Policy", "PRIVACY_POLICY.md"),
   ("Terms of Service", "TERMS_OF_SERVICE.md"),
   ("Data Safety Disclosure", "DATA_SAFETY_DISCLOSURE.md"),
   ("Store Listing", "STORE_LISTING.md"),
   ("Release Notes", "RELEASE_NOTES.md"),
   ("Content Rating Questionnaire", "CONTENT_RATING_QUESTIONNAIRE.md"),
   ("Promotional Assets Guide", "PROMOTIONAL_ASSETS_GUIDE.md"),
   ("Google Play Publishing Checklist", "GOOGLE_PLAY_PUBLISHING_CHECKLIST.md"),
   ("Support Documentation", "SUPPORT_DOCUMENTATION.md"),
   ("Build Script", "build_release.bat"),
   ("Signing Guide", "SIGNING_GUIDE.md"),
   ("App Icon", "assets/logo.png"),
   ("Keystore File", "pocketpilot-key.jks"),
   ("Feature Graphic", "promotional-assets/feature-graphic.png"),
   ("Promotional Assets README", "promotional-assets/README.md"),
   ("Screenshots README", "promotional-assets/screenshots/README.md"),
   ("Video README", "promotional-assets/video/README.md"),
   ("Feature Graphic Generator", "generate_feature_graphic.py"),
   ("Screenshot Helper", "take_screenshots.py"),
   ("Screenshot Helper Batch", "take_screenshots.bat"),
   ("Complete File List", "GOOGLE_PLAY_PUBLISHING_FILE_LIST.md"),
   ("Final Checklist", "FINAL_PUBLISHING_CHECKLIST.md"),
   ("Publishing Summary", "GOOGLE_PLAY_PUBLISHING_SUMMARY.md"),
   ("Promotional Assets Checklist", "PROMOTIONAL_ASSETS_CHECKLIST.md")]

/-- The status line printed for one entry: `f"{status} {name}: {filepath}"`. -/
def statusLine (fs : FS) (e : String × String) : String :=
  check_file_exists fs e.2 ++ " " ++ e.1 ++ ": " ++ e.2

/-- One iteration of the `for name, filepath in required_files` loop: append
the entry's status line and clear `all_files_present` when the status is "❌". -/
def checkStep (fs : FS) (acc : List String × Bool) (e : String × String) :
    List String × Bool :=
  let status := check_file_exists fs e.2
  (acc.1 ++ [status ++ " " ++ e.1 ++ ": " ++ e.2],
   if status = "❌" then false else acc.2)

/-- The whole checking loop of `main`, started from no printed lines and
`all_files_present = True`: yields the printed status lines and the final
value of `all_files_present`. -/
def checkLoop (fs : FS) : List String × Bool :=
  required_files.foldl (checkStep fs) ([], true)

/-- The lines `main` prints before the loop. -/
def headerLines : List String :=
  [repeatChar 60 '=',
   "GOOGLE PLAY PUBLISHING FILES VERIFICATION",
   repeatChar 60 '=',
   "",
   "Checking required files:",
   repeatChar 40 '-']

/-- The lines printed by the `if all_files_present` branch of `main`. -/
def successLines : List String :=
  ["✅ ALL REQUIRED FILES ARE PRESENT",
   "",
   "Next steps:",
   "1. Create screenshots of your app",
   "2. (Optional) Create a promo video",
   "3. Build your release version with build_release.bat",
   "4. Upload all assets to Google Play Console",
   "5. Submit your app for review"]

/-- The lines printed by the `else` branch of `main`. -/
def missingLines : List String :=
  ["❌ SOME FILES ARE MISSING",
   "Please check the list above and ensure all required files are present."]

/-- The complete console output of `main`, one list element per printed line. -/
def mainOutput (fs : FS) : List String :=
  let r := checkLoop fs
  headerLines ++ r.1 ++ ["", repeatChar 40 '-'] ++
    (if r.2 then successLines else missingLines) ++
    ["", "For detailed instructions, see GOOGLE_PLAY_PUBLISHING_FILE_LIST.md"]

/-- A whole run of the script: the console output and the process exit status.
The script never calls `sys.exit`, so the interpreter exits with status 0 on
every run. -/
def run (fs : FS) : List String × Nat :=
  (mainOutput fs, 0)

lemma check_file_exists_of_true (fs : FS) (p : String) (h : fs p = true) :
    check_file_exists fs p = "✅" := by
  simp [check_file_exists, h]

lemma check_file_exists_of_false (fs : FS) (p : String) (h : fs p = false) :
    check_file_exists fs p = "❌" := by
  simp [check_file_exists, h]

lemma foldl_checkStep (fs : FS) (l : List (String × String))
    (acc : List String) (b : Bool) :
    l.foldl (checkStep fs) (acc, b) =
      (acc ++ l.map (statusLine fs), b && l.all (fun e => fs e.2)) := by
  induction l generalizing acc b with
  | nil => simp
  | cons e t ih =>
    simp only [List.foldl_cons, List.map_cons, List.all_cons]
    rw [show checkStep fs (acc, b) e =
        (acc ++ [statusLine fs e],
         if check_file_exists fs e.2 = "❌" then false else b) from rfl]
    rw [ih]
    by_cases h : fs e.2 = true
    · simp [check_file_exists, h, show ("✅" : String) ≠ "❌" from by decide]
    · simp only [Bool.not_eq_true] at h
      simp [check_file_exists, h]

/-- The loop computes the status lines in list order, and `all_files_present`
is the conjunction of the per-entry existence bits. -/
lemma checkLoop_eq (fs : FS) :
    checkLoop fs =
      (required_files.map (statusLine fs),
       required_files.all (fun e => fs e.2)) := by
  unfold checkLoop
  rw [foldl_checkStep]
  simp

lemma checkLoop_fst (fs : FS) :
    (checkLoop fs).1 = required_files.map (statusLine fs) := by
  rw [checkLoop_eq]

lemma checkLoop_snd (fs : FS) :
    (checkLoop fs).2 = required_files.all (fun e => fs e.2) := by
  rw [checkLoop_eq]

/-- Closed form of the whole report: header, the per-entry status lines in
configured order, the separator, the aggregate branch, and the final line. -/
lemma mainOutput_eq (fs : FS) :
    mainOutput fs =
      headerLines ++ required_files.map (statusLine fs) ++
        ["", repeatChar 40 '-'] ++
        (if required_files.all (fun e => fs e.2) then successLines
         else missingLines) ++
        ["", "For detailed instructions, see GOOGLE_PLAY_PUBLISHING_FILE_LIST.md"] := by
  simp only [mainOutput]
  rw [checkLoop_eq]

/-- The report always ends with the final instructions line: the run is
non-fatal and completes whatever the per-entry outcomes were. -/
lemma mainOutput_getLast (fs : FS) :
    (mainOutput fs).getLast? =
      some "For detailed instructions, see GOOGLE_PLAY_PUBLISHING_FILE_LIST.md" := by
  simp only [mainOutput]
  rw [List.getLast?_append_of_ne_nil _ (by simp)]
  rfl

lemma all_congr_of_agree (fs1 fs2 : FS) (l : List (String × String))
    (h : ∀ e ∈ l, fs1 e.2 = fs2 e.2) :
    l.all (fun e => fs1 e.2) = l.all (fun e => fs2 e.2) := by
  induction l with
  | nil => rfl
  | cons a t ih =>
    simp only [List.all_cons]
    rw [h a (by simp), ih (fun e he => h e (by simp [he]))]

/-- Runs seeing the same existence bit on every configured path are
indistinguishable: same output lines and same exit status. -/
lemma run_congr_of_agree (fs1 fs2 : FS)
    (h : ∀ e ∈ required_files, fs1 e.2 = fs2 e.2) :
    run fs1 = run fs2 := by
  have hmap : required_files.map (statusLine fs1)
      = required_files.map (statusLine fs2) :=
    List.map_congr_left fun e he => by
      simp [statusLine, check_file_exists, h e he]
  have hall := all_congr_of_agree fs1 fs2 required_files h
  unfold run
  rw [mainOutput_eq, mainOutput_eq, hmap, hall]

lemma all_eq_false_of_missing (fs : FS)
    (h : ∃ e ∈ required_files, fs e.2 = false) :
    required_files.all (fun e => fs e.2) = false := by
  obtain ⟨e, he, hfe⟩ := h
  cases hb : required_files.all (fun e => fs e.2) with
  | false => rfl
  | true =>
    have := List.all_eq_true.mp hb e he
    rw [hfe] at this
    exact absurd this (by decide)

/-- C1: when every configured path exists, every entry's status line carries
"✅", `all_files_present` ends true, the "ALL REQUIRED FILES ARE PRESENT"
message is printed, and (unconditionally) the aggregate equals the boolean
conjunction of the per-entry existence checks. -/
theorem claim_C1_all_present (fs : FS)
    (h : ∀ e ∈ required_files, fs e.2 = true) :
    (checkLoop fs).1 =
        required_files.map (fun e => "✅" ++ " " ++ e.1 ++ ": " ++ e.2) ∧
    (checkLoop fs).2 = true ∧
    "✅ ALL REQUIRED FILES ARE PRESENT" ∈ mainOutput fs ∧
    ∀ g : FS, (checkLoop g).2 = required_files.all (fun e => g e.2) := by
  have hall : required_files.all (fun e => fs e.2) = true :=
    List.all_eq_true.mpr h
  refine ⟨?_, ?_, ?_, fun g => by rw [checkLoop_eq]⟩
  · rw [checkLoop_eq]
    exact List.map_congr_left fun e he => by
      simp [statusLine, check_file_exists, h e he]
  · rw [checkLoop_eq]; exact hall
  · simp [mainOutput, checkLoop_fst, checkLoop_snd, hall, successLines,
      headerLines]

theorem claim_C1_all_present_witness :
    (∀ e ∈ Verify.required_files, (fun _ : String => true) e.2 = true) ∧
    ((Verify.checkLoop (fun _ => true)).2 = true ∧
     "✅ ALL REQUIRED FILES ARE PRESENT" ∈ Verify.mainOutput (fun _ => true)) :=
  ⟨fun _ _ => rfl,
   (claim_C1_all_present (fun _ => true) (fun _ _ => rfl)).2.1,
   (claim_C1_all_present (fun _ => true) (fun _ _ => rfl)).2.2.1⟩

/-- C2: when at least one configured path is missing, each missing entry's
status line carries "❌", `all_files_present` ends false, the
"SOME FILES ARE MISSING" message is printed, every entry is still reported
(one status line per entry, in order), and the report runs to completion,
ending with the final instructions line. -/
theorem claim_C2_some_missing (fs : FS)
    (h : ∃ e ∈ required_files, fs e.2 = false) :
    (∀ e ∈ required_files, fs e.2 = false →
        statusLine fs e = "❌" ++ " " ++ e.1 ++ ": " ++ e.2) ∧
    (checkLoop fs).2 = false ∧
    "❌ SOME FILES ARE MISSING" ∈ mainOutput fs ∧
    (checkLoop fs).1 = required_files.map (statusLine fs) ∧
    (checkLoop fs).1.length = required_files.length ∧
    (mainOutput fs).getLast? =
      some "For detailed instructions, see GOOGLE_PLAY_PUBLISHING_FILE_LIST.md" := by
  have hall := all_eq_false_of_missing fs h
  refine ⟨?_, ?_, ?_, ?_, ?_, ?_⟩
  · intro e _ hfe
    simp [statusLine, check_file_exists, hfe]
  · rw [checkLoop_eq]; exact hall
  · simp [mainOutput, checkLoop_fst, checkLoop_snd, hall, missingLines,
      headerLines]
  · rw [checkLoop_eq]
  · rw [checkLoop_eq]; exact List.length_map _ _
  · exact mainOutput_getLast fs

theorem claim_C2_some_missing_witness :
    (∃ e ∈ Verify.required_files, (fun _ : String => false) e.2 = false) ∧
    ((Verify.checkLoop (fun _ => false)).2 = false ∧
     "❌ SOME FILES ARE MISSING" ∈ Verify.mainOutput (fun _ => false) ∧
     (Verify.checkLoop (fun _ => false)).1.length =
       Verify.required_files.length) :=
  ⟨⟨("Privacy Policy", "PRIVACY_POLICY.md"), by decide, rfl⟩,
   (claim_C2_some_missing (fun _ => false)
      ⟨("Privacy Policy", "PRIVACY_POLICY.md"), by decide, rfl⟩).2.1,
   (claim_C2_some_missing (fun _ => false)
      ⟨("Privacy Policy", "PRIVACY_POLICY.md"), by decide, rfl⟩).2.2.1,
   (claim_C2_some_missing (fun _ => false)
      ⟨("Privacy Policy", "PRIVACY_POLICY.md"), by decide, rfl⟩).2.2.2.2.1⟩

/-- C3: on every run, the loop prints exactly one status line per configured
entry, in configured order, and the whole report is the header, those lines
in order, the separator, the aggregate branch, and the final instructions. -/
theorem claim_C3_one_line_per_entry (fs : FS) :
    (checkLoop fs).1 = required_files.map (statusLine fs) ∧
    (checkLoop fs).1.length = required_files.length ∧
    mainOutput fs =
      headerLines ++ required_files.map (statusLine fs) ++
        ["", repeatChar 40 '-'] ++
        (if required_files.all (fun e => fs e.2) then successLines
         else missingLines) ++
        ["", "For detailed instructions, see GOOGLE_PLAY_PUBLISHING_FILE_LIST.md"] := by
  refine ⟨by rw [checkLoop_eq], ?_, ?_⟩
  · rw [checkLoop_eq]; exact List.length_map _ _
  · exact mainOutput_eq fs

/-- C4: the process exit status is 0 on every run; it never distinguishes the
all-present outcome from the some-missing outcome. -/
theorem claim_C4_exit_status_zero (fs1 fs2 : FS) :
    (run fs1).2 = 0 ∧ (run fs1).2 = (run fs2).2 :=
  ⟨rfl, rfl⟩

/-- C5: the per-entry check consults only the existence bit of the path
(`os.path.exists`, true for a file or a directory alike): an entry is marked
"✅" iff the path exists, "❌" iff it does not, these are the only possible
statuses, and the status is fully determined by that one bit. -/
theorem claim_C5_existence_only (fs : FS) (p : String) :
    (check_file_exists fs p = "✅" ↔ fs p = true) ∧
    (check_file_exists fs p = "❌" ↔ fs p = false) ∧
    (check_file_exists fs p = "✅" ∨ check_file_exists fs p = "❌") ∧
    check_file_exists fs p = check_file_exists (fun _ => fs p) p := by
  unfold check_file_exists
  cases h : fs p <;> simp

theorem claim_C5_existence_only_witness :
    (Verify.check_file_exists (fun _ => true) "PRIVACY_POLICY.md" = "✅" ↔
       (fun _ : String => true) "PRIVACY_POLICY.md" = true) ∧
    (Verify.check_file_exists (fun _ => true) "PRIVACY_POLICY.md" = "✅" ∨
       Verify.check_file_exists (fun _ => true) "PRIVACY_POLICY.md" = "❌") :=
  ⟨(claim_C5_existence_only (fun _ => true) "PRIVACY_POLICY.md").1,
   (claim_C5_existence_only (fun _ => true) "PRIVACY_POLICY.md").2.2.1⟩

/-- C6: the verifier is a deterministic function of the existence state of
the configured paths: two runs between which the existence status of every
configured path is unchanged produce identical console output (and identical
exit status), even if other paths changed in between. -/
theorem claim_C6_deterministic (fs1 fs2 : FS)
    (h : ∀ e ∈ required_files, fs1 e.2 = fs2 e.2) :
    mainOutput fs1 = mainOutput fs2 ∧ run fs1 = run fs2 := by
  have hr := run_congr_of_agree fs1 fs2 h
  exact ⟨congrArg Prod.fst hr, hr⟩

theorem claim_C6_deterministic_witness :
    (∀ e ∈ Verify.required_files,
       (fun _ : String => true) e.2 =
       (fun q : String => decide (q ≠ "unlisted-extra-file.txt")) e.2) ∧
    Verify.mainOutput (fun _ => true) =
      Verify.mainOutput (fun q => decide (q ≠ "unlisted-extra-file.txt")) :=
  ⟨by decide,
   (claim_C6_deterministic (fun _ => true)
      (fun q => decide (q ≠ "unlisted-extra-file.txt")) (by decide)).1⟩

/-- C10: noninterference: the whole run (output and exit status) depends only
on the existence bits of the 24 configured paths; filesystems agreeing on
those paths are indistinguishable, whatever else exists on disk. -/
theorem claim_C10_noninterference (fs1 fs2 : FS)
    (h : ∀ e ∈ required_files, fs1 e.2 = fs2 e.2) :
    run fs1 = run fs2 :=
  run_congr_of_agree fs1 fs2 h

theorem claim_C10_noninterference_witness :
    (∀ e ∈ Verify.required_files,
       (fun _ : String => true) e.2 =
       (fun q : String => decide (q ≠ "some-unconfigured-file.txt")) e.2) ∧
    Verify.run (fun _ => true) =
      Verify.run (fun q => decide (q ≠ "some-unconfigured-file.txt")) :=
  ⟨by decide,
   claim_C10_noninterference (fun _ => true)
     (fun q => decide (q ≠ "some-unconfigured-file.txt")) (by decide)⟩

end Verify

namespace Graphic

/-- A PIL font handle: either `ImageFont.truetype(path, size)` or the
`ImageFont.load_default()` fallback. -/
inductive PILFont where
  | truetype (path : String) (size : Nat)
  | load_default
deriving DecidableEq

/-- The `(left, top, right, bottom)` box returned by `draw.textbbox`. -/
structure BBox where
  left : Int
  top : Int
  right : Int
  bottom : Int

/-- Font metrics oracle standing for the rendering library's text
measurement: the bounding box of a string in a font. -/
abbrev Metrics := PILFont → String → BBox

/-- A drawing call performed on the canvas, in the source's vocabulary. -/
inductive DrawOp where
  | text (xy : Int × Int) (s : String) (fill : Nat × Nat × Nat) (font : PILFont)
  | ellipse (xy : List Int) (outline : Nat × Nat × Nat) (width : Nat)
  | line (xy : List Int) (fill : Nat × Nat × Nat) (width : Nat)
deriving DecidableEq

/-- A PIL image: mode, pixel dimensions, background fill, and the recorded
drawing operations (pixel-level rendering is out of scope). -/
structure PILImage where
  mode : String
  width : Int
  height : Int
  background : Nat × Nat × Nat
  ops : List DrawOp
deriving DecidableEq

/-- Filesystem state the generator touches: file contents (abstracted to the
saved image) and directory existence. -/
structure FSState where
  files : String → Option PILImage
  dirs : String → Bool

/-- Python `os.path.dirname`: everything before the last "/" separator, or
"" when the path has none. -/
def dirname (p : String) : String :=
  let cs := p.toList
  if cs.contains '/' then
    String.mk ((cs.reverse.dropWhile (fun c => c ≠ '/')).drop 1).reverse
  else ""

/-- Everything a run of `create_feature_graphic` produces: the filesystem
after the run, the saved image, the three chosen fonts, and the printed
lines. -/
structure GenResult where
  fs : FSState
  img : PILImage
  font_large : PILFont
  font_medium : PILFont
  font_small : PILFont
  printed : List String

/-- The `features` list from the source (declared there but never drawn). -/
def features : List String :=
  ["Smart Budgeting",
   "Expense Tracking",
   "Financial Insights",
   "Secure & Private"]

/-- The fixed output path of `create_feature_graphic`. -/
def output_path : String := "promotional-assets/feature-graphic.png"

/-- `create_feature_graphic` from `generate_feature_graphic.py`.
`fontOk` models whether `ImageFont.truetype("arial.ttf", _)` succeeds: the
`try` block assigns the three truetype fonts, and on failure the `except`
block assigns `load_default()` to all three. `m` is the text-measurement
oracle and `fs0` the filesystem before the run. Python `//` is `Int.fdiv`. -/
def create_feature_graphic (fontOk : Bool) (m : Metrics) (fs0 : FSState) :
    GenResult :=
  let width : Int := 1024
  let height : Int := 500
  let background_color : Nat × Nat × Nat := (0, 150, 136)
  let accent_color : Nat × Nat × Nat := (255, 255, 255)
  let font_large :=
    if fontOk then PILFont.truetype "arial.ttf" 80 else PILFont.load_default
  let font_medium :=
    if fontOk then PILFont.truetype "arial.ttf" 40 else PILFont.load_default
  let font_small :=
    if fontOk then PILFont.truetype "arial.ttf" 30 else PILFont.load_default
  let title := "PocketPilot"
  let bbox1 := m font_large title
  let tw1 := bbox1.right - bbox1.left
  let _text_height := bbox1.bottom - bbox1.top
  let x1 := Int.fdiv (width - tw1) 2
  let y1 := Int.fdiv height 4
  let titleOps :=
    [DrawOp.text (x1 + 2, y1 + 2) title (0, 0, 0) font_large,
     DrawOp.text (x1, y1) title accent_color font_large]
  let subtitle := "Your Personal Financial Guide"
  let bbox2 := m font_medium subtitle
  let tw2 := bbox2.right - bbox2.left
  let x2 := Int.fdiv (width - tw2) 2
  let y2 := Int.fdiv height 4 + 100
  let subtitleOps :=
    [DrawOp.text (x2 + 1, y2 + 1) subtitle (0, 0, 0) font_medium,
     DrawOp.text (x2, y2) subtitle accent_color font_medium]
  let circleOps := (List.range 5).map (fun i =>
    let x_pos : Int := 100 + (i : Int) * 200
    let y_pos : Int := height - 150
    let radius : Int := 30
    DrawOp.ellipse [x_pos - radius, y_pos - radius, x_pos + radius, y_pos + radius]
      accent_color 2)
  let lineOps := (List.range 3).map (fun i =>
    let y_pos : Int := 100 + (i : Int) * 50
    DrawOp.line [50, y_pos, 200, y_pos] accent_color 2)
  let img : PILImage :=
    { mode := "RGB", width := width, height := height,
      background := background_color,
      ops := titleOps ++ subtitleOps ++ circleOps ++ lineOps }
  let fs1 : FSState :=
    { files := Function.update fs0.files output_path (some img),
      dirs := Function.update fs0.dirs (dirname output_path) true }
  { fs := fs1, img := img,
    font_large := font_large, font_medium := font_medium,
    font_small := font_small,
    printed :=
      ["Feature graphic created successfully at " ++ output_path,
       "Dimensions: 1024x500 pixels",
       "Background color: #009688 (Teal)",
       "Text color: White"] }

/-- C7: on every run, whether the preferred font loads or the default
fallback is used, the produced image — and the image saved at the output
path — has exactly the fixed dimensions 1024 by 500 pixels. -/
theorem claim_C7_fixed_dimensions (fontOk : Bool) (m : Metrics) (fs : FSState) :
    (create_feature_graphic fontOk m fs).img.width = 1024 ∧
    (create_feature_graphic fontOk m fs).img.height = 500 ∧
    (create_feature_graphic fontOk m fs).fs.files output_path =
      some (create_feature_graphic fontOk m fs).img := by
  refine ⟨rfl, rfl, ?_⟩
  simp [create_feature_graphic]

/-- C8: when loading the preferred font fails, all three font slots are
silently filled with the default font, the printed lines are exactly the
success messages — identical to a run where the font loads, so no warning is
visible — and generation still completes, saving the image. -/
theorem claim_C8_silent_font_fallback (m : Metrics) (fs : FSState) :
    (create_feature_graphic false m fs).font_large = PILFont.load_default ∧
    (create_feature_graphic false m fs).font_medium = PILFont.load_default ∧
    (create_feature_graphic false m fs).font_small = PILFont.load_default ∧
    (create_feature_graphic false m fs).printed =
      (create_feature_graphic true m fs).printed ∧
    (create_feature_graphic false m fs).printed =
      ["Feature graphic created successfully at promotional-assets/feature-graphic.png",
       "Dimensions: 1024x500 pixels",
       "Background color: #009688 (Teal)",
       "Text color: White"] ∧
    (create_feature_graphic false m fs).fs.files output_path =
      some (create_feature_graphic false m fs).img := by
  refine ⟨rfl, rfl, rfl, rfl, rfl, ?_⟩
  simp [create_feature_graphic]

/-- C9: every run writes exactly one file, always at the fixed relative path
"promotional-assets/feature-graphic.png" (overwriting any previous content),
and sets exactly the parent directory "promotional-assets" to existing; all
other files and directories are untouched. -/
theorem claim_C9_frame_effect (fontOk : Bool) (m : Metrics) (fs : FSState) :
    (create_feature_graphic fontOk m fs).fs.files =
      Function.update fs.files "promotional-assets/feature-graphic.png"
        (some (create_feature_graphic fontOk m fs).img) ∧
    (create_feature_graphic fontOk m fs).fs.dirs =
      Function.update fs.dirs "promotional-assets" true := by
  have hd : dirname output_path = "promotional-assets" := by decide
  exact ⟨rfl, by simp [create_feature_graphic, hd]⟩

end Graphic
